import Mathlib

/-!
Verification development for the Gesturefy content script
(`src/core/workarounds/content.bundle.js`).

The JavaScript source is shallowly embedded: each stateful module becomes a
Lean structure holding its private variables, and each handler becomes a pure
function from the old state (plus the incoming event data) to the new state
together with the list of callbacks it fires.  Coordinates, button masks,
wheel deltas and timestamps are modelled as integers.  The two floating-point
comparisons of the pattern algorithm — `Math.hypot(dx, dy) >
distanceThreshold` (content.bundle.js:1211-1212) and
`Math.abs(vectorDirectionDifference(...)) > differenceThreshold`
(content.bundle.js:1221-1222) — are kept as explicit boolean-valued
parameters (`distOK`, `angleOK`) of the embedding; theorems about the control
structure hold for every value of these predicates, hence in particular for
the real-number comparisons of the source.  For concrete evaluations we use
exact integer reformulations of the two comparisons that agree with the
source on the inputs used (documented at their definitions).
-/

namespace Gesturefy

/-! ### PatternConstructor (content.bundle.js:1152-1269)

The private fields `_lastExtractedPointX/Y`, `_previousPointX/Y`,
`_lastPointX/Y`, `_previousVectoX/Y` are nullable numbers, modelled as
`Option ℤ`; `_extracedVectors` is an array of 2-element arrays, modelled as a
list of pairs. -/

structure PCState where
  lastExtractedPointX : Option ℤ
  lastExtractedPointY : Option ℤ
  previousPointX : Option ℤ
  previousPointY : Option ℤ
  lastPointX : Option ℤ
  lastPointY : Option ℤ
  previousVectoX : Option ℤ
  previousVectoY : Option ℤ
  extracedVectors : List (ℤ × ℤ)
deriving DecidableEq, Repr

/-- The constructor state (content.bundle.js:1153-1167): every point variable
is `null` and the vector array is empty. -/
def pcInit : PCState :=
  { lastExtractedPointX := none, lastExtractedPointY := none
    previousPointX := none, previousPointY := none
    lastPointX := none, lastPointY := none
    previousVectoX := none, previousVectoY := none
    extracedVectors := [] }

/-- `PatternConstructor.clear` (content.bundle.js:1172-1184): empties the
vector array and resets every point variable to `null`. -/
def pcClear (s : PCState) : PCState :=
  { s with extracedVectors := []
           lastExtractedPointX := none, lastExtractedPointY := none
           previousPointX := none, previousPointY := none
           lastPointX := none, lastPointY := none
           previousVectoX := none, previousVectoY := none }

/-- `PatternConstructor.addPoint` (content.bundle.js:1194-1250).
Returns the updated state together with the `changeIndicator` return value.

* `distOK dx dy` stands for the source comparison
  `Math.hypot(newVX, newVY) > this.distanceThreshold`;
* `angleOK v1x v1y v2x v2y` stands for
  `Math.abs(vectorDirectionDifference(v1x, v1y, v2x, v2y)) > this.differenceThreshold`.

In the segment-extraction branch the source reads
`this._previousPointX - this._lastExtractedPointX` while
`_lastExtractedPointX` may in principle still be `null`; JavaScript coerces
`null` to `0` in subtraction, hence the `.getD 0`. -/
def addPoint (distOK : ℤ → ℤ → Bool) (angleOK : ℤ → ℤ → ℤ → ℤ → Bool)
    (s : PCState) (x y : ℤ) : PCState × ℕ :=
  match s.previousPointX, s.previousPointY with
  | some px, some py =>
    -- content.bundle.js:1208-1209
    let newVX := x - px
    let newVY := y - py
    if distOK newVX newVY then
      match s.previousVectoX, s.previousVectoY with
      | some pvx, some pvy =>
        if angleOK pvx pvy newVX newVY then
          -- content.bundle.js:1222-1236: push the segment, adopt the new
          -- reference vector, advance the extracted point and the previous
          -- point; the change indicator is incremented twice.
          ({ s with
             extracedVectors := s.extracedVectors ++
               [(px - s.lastExtractedPointX.getD 0, py - s.lastExtractedPointY.getD 0)]
             previousVectoX := some newVX, previousVectoY := some newVY
             lastExtractedPointX := some px, lastExtractedPointY := some py
             previousPointX := some x, previousPointY := some y
             lastPointX := some x, lastPointY := some y }, 2)
        else
          -- angular difference not passed: only the previous point advances
          -- (content.bundle.js:1238-1242), change indicator incremented once.
          ({ s with previousPointX := some x, previousPointY := some y
                    lastPointX := some x, lastPointY := some y }, 1)
      | _, _ =>
        -- content.bundle.js:1214-1218: no reference vector yet; adopt the
        -- displacement as reference, change indicator incremented once.
        ({ s with previousVectoX := some newVX, previousVectoY := some newVY
                  previousPointX := some x, previousPointY := some y
                  lastPointX := some x, lastPointY := some y }, 1)
    else
      -- below the distance threshold: only `_lastPointX/Y` are written
      -- (content.bundle.js:1246-1247), change indicator stays 0.
      ({ s with lastPointX := some x, lastPointY := some y }, 0)
  | _, _ =>
    -- first point (content.bundle.js:1198-1205): seed the extracted point and
    -- the previous point; change indicator stays 0.
    ({ s with lastExtractedPointX := some x, lastExtractedPointY := some y
              previousPointX := some x, previousPointY := some y
              lastPointX := some x, lastPointY := some y }, 0)

/-- `PatternConstructor.getPattern` (content.bundle.js:1257-1268): returns
`[]` while any of the four checked variables is `null`, otherwise the
extracted vectors followed by the synthetic trailing vector from the last
extracted point to the last point. -/
def getPattern (s : PCState) : List (ℤ × ℤ) :=
  match s.lastPointX, s.lastPointY, s.lastExtractedPointX, s.lastExtractedPointY with
  | some lx, some ly, some lex, some ley =>
    s.extracedVectors ++ [(lx - lex, ly - ley)]
  | _, _, _, _ => []

/-- Feed a list of points through `addPoint`, keeping the state. -/
def runPoints (distOK : ℤ → ℤ → Bool) (angleOK : ℤ → ℤ → ℤ → ℤ → Bool)
    (s : PCState) (ps : List (ℤ × ℤ)) : PCState :=
  ps.foldl (fun t p => (addPoint distOK angleOK t p.1 p.2).1) s

/-- Exact integer form of `Math.hypot(dx, dy) > 10` for the deployed
`distanceThreshold = 10` (content.bundle.js:1832): for integers,
`hypot dx dy > 10 ↔ dx² + dy² > 100`, and the double-precision `hypot` of
integers this small decides the strict comparison exactly. -/
def distGT10 (dx dy : ℤ) : Bool := dx * dx + dy * dy > 100

/-- Whether two vectors have equal `Math.atan2` angles in the argument order
`atan2(x, y)` used by `vectorDirectionDifference`
(content.bundle.js:1281).  For nonzero integer vectors the angles are equal
exactly when the vectors lie on the same ray (cross product zero, dot product
positive); `atan2(0, 0) = 0` is the angle of the positive y-axis, hence the
zero vector is mapped to `(0, 1)` first. -/
def sameAtan2Dir (x1 y1 x2 y2 : ℤ) : Bool :=
  let p := if x1 = 0 && y1 = 0 then ((0 : ℤ), (1 : ℤ)) else (x1, y1)
  let q := if x2 = 0 && y2 = 0 then ((0 : ℤ), (1 : ℤ)) else (x2, y2)
  p.1 * q.2 = q.1 * p.2 && p.1 * q.1 + p.2 * q.2 > 0

/-- Exact integer form of
`Math.abs(vectorDirectionDifference(v1x, v1y, v2x, v2y)) > 0`, the angular
comparison at the constructor-default `differenceThreshold = 0`
(content.bundle.js:1153): the direction difference is `0` exactly when the
two `atan2` angles coincide.  (At the deployed threshold `0.12` the
comparison also yields `false` on equal-angle vectors, the only case the
concrete evaluations below exercise.) -/
def angleGT0 (v1x v1y v2x v2y : ℤ) : Bool := !sameAtan2Dir v1x v1y v2x v2y

/-! ### Claim C1 -/

/-- C1 counterexample.  With `distanceThreshold = 10` and a reference
direction already established by the points `(0,0), (20,0)`, the further
point `(40,0)` passes the distance threshold but not the angular difference
threshold (the displacement `(20,0)` equals the reference direction, so the
direction difference is exactly `0`).  `addPoint` establishes no new
direction reference and extracts no segment, yet it returns `1`, where the
claim's contract says the call returns neither `1` nor `2`. -/
theorem c1_counterexample :
    (addPoint distGT10 angleGT0
        (runPoints distGT10 angleGT0 pcInit [(0, 0), (20, 0)]) 40 0).2 = 1 ∧
    (addPoint distGT10 angleGT0
        (runPoints distGT10 angleGT0 pcInit [(0, 0), (20, 0)]) 40 0).1.extracedVectors =
      (runPoints distGT10 angleGT0 pcInit [(0, 0), (20, 0)]).extracedVectors ∧
    (addPoint distGT10 angleGT0
        (runPoints distGT10 angleGT0 pcInit [(0, 0), (20, 0)]) 40 0).1.previousVectoX =
      (runPoints distGT10 angleGT0 pcInit [(0, 0), (20, 0)]).previousVectoX ∧
    (addPoint distGT10 angleGT0
        (runPoints distGT10 angleGT0 pcInit [(0, 0), (20, 0)]) 40 0).1.previousVectoY =
      (runPoints distGT10 angleGT0 pcInit [(0, 0), (20, 0)]).previousVectoY := by
  decide

/-- C1 (amended): the change indicator of `addPoint` is `0` exactly when the
point is the first one or its displacement from the previous point does not
pass the distance threshold; it is `1` exactly when the displacement passes
the distance threshold while no segment is extracted (either no reference
direction exists yet and the displacement is adopted as the reference, or the
angular difference does not pass its threshold and only the previous-point
anchor advances); it is `2` exactly when the displacement passes both
thresholds, in which case exactly one new segment is appended; in the other
cases the extracted segments are unchanged. -/
theorem c1_addPoint_change_indicator (distOK : ℤ → ℤ → Bool)
    (angleOK : ℤ → ℤ → ℤ → ℤ → Bool) (s : PCState) (x y : ℤ) :
    ((addPoint distOK angleOK s x y).2 = 0 ↔
      (s.previousPointX = none ∨ s.previousPointY = none) ∨
      ∃ px py, s.previousPointX = some px ∧ s.previousPointY = some py ∧
        distOK (x - px) (y - py) = false) ∧
    ((addPoint distOK angleOK s x y).2 = 1 ↔
      ∃ px py, s.previousPointX = some px ∧ s.previousPointY = some py ∧
        distOK (x - px) (y - py) = true ∧
        ((s.previousVectoX = none ∨ s.previousVectoY = none) ∨
          ∃ pvx pvy, s.previousVectoX = some pvx ∧ s.previousVectoY = some pvy ∧
            angleOK pvx pvy (x - px) (y - py) = false)) ∧
    ((addPoint distOK angleOK s x y).2 = 2 ↔
      ∃ px py pvx pvy, s.previousPointX = some px ∧ s.previousPointY = some py ∧
        s.previousVectoX = some pvx ∧ s.previousVectoY = some pvy ∧
        distOK (x - px) (y - py) = true ∧
        angleOK pvx pvy (x - px) (y - py) = true) ∧
    ((addPoint distOK angleOK s x y).2 = 2 →
      (addPoint distOK angleOK s x y).1.extracedVectors.length =
        s.extracedVectors.length + 1) ∧
    ((addPoint distOK angleOK s x y).2 ≠ 2 →
      (addPoint distOK angleOK s x y).1.extracedVectors = s.extracedVectors) := by
  rcases hpx : s.previousPointX with _ | px
  · simp [addPoint, hpx]
  · rcases hpy : s.previousPointY with _ | py
    · simp [addPoint, hpx, hpy]
    · cases hd : distOK (x - px) (y - py)
      · simp [addPoint, hpx, hpy, hd]
      · rcases hvx : s.previousVectoX with _ | pvx
        · simp [addPoint, hpx, hpy, hd, hvx]
        · rcases hvy : s.previousVectoY with _ | pvy
          · simp [addPoint, hpx, hpy, hd, hvx, hvy]
          · cases ha : angleOK pvx pvy (x - px) (y - py) <;>
              simp [addPoint, hpx, hpy, hd, hvx, hvy, ha]

/-- Witness for `c1_addPoint_change_indicator` at the concrete oracles,
initial state and point `(0, 0)`. -/
theorem c1_addPoint_change_indicator_witness :
    ((addPoint distGT10 angleGT0 pcInit 0 0).2 = 0 ↔
      (pcInit.previousPointX = none ∨ pcInit.previousPointY = none) ∨
      ∃ px py, pcInit.previousPointX = some px ∧ pcInit.previousPointY = some py ∧
        distGT10 (0 - px) (0 - py) = false) ∧
    ((addPoint distGT10 angleGT0 pcInit 0 0).2 = 1 ↔
      ∃ px py, pcInit.previousPointX = some px ∧ pcInit.previousPointY = some py ∧
        distGT10 (0 - px) (0 - py) = true ∧
        ((pcInit.previousVectoX = none ∨ pcInit.previousVectoY = none) ∨
          ∃ pvx pvy, pcInit.previousVectoX = some pvx ∧ pcInit.previousVectoY = some pvy ∧
            angleGT0 pvx pvy (0 - px) (0 - py) = false)) ∧
    ((addPoint distGT10 angleGT0 pcInit 0 0).2 = 2 ↔
      ∃ px py pvx pvy, pcInit.previousPointX = some px ∧ pcInit.previousPointY = some py ∧
        pcInit.previousVectoX = some pvx ∧ pcInit.previousVectoY = some pvy ∧
        distGT10 (0 - px) (0 - py) = true ∧
        angleGT0 pvx pvy (0 - px) (0 - py) = true) ∧
    ((addPoint distGT10 angleGT0 pcInit 0 0).2 = 2 →
      (addPoint distGT10 angleGT0 pcInit 0 0).1.extracedVectors.length =
        pcInit.extracedVectors.length + 1) ∧
    ((addPoint distGT10 angleGT0 pcInit 0 0).2 ≠ 2 →
      (addPoint distGT10 angleGT0 pcInit 0 0).1.extracedVectors =
        pcInit.extracedVectors) :=
  c1_addPoint_change_indicator distGT10 angleGT0 pcInit 0 0

/-! ### Claim C4 -/

/-- All six point variables hold a value (none of them is `null`). -/
def pcInited (s : PCState) : Prop :=
  s.previousPointX.isSome ∧ s.previousPointY.isSome ∧
  s.lastExtractedPointX.isSome ∧ s.lastExtractedPointY.isSome ∧
  s.lastPointX.isSome ∧ s.lastPointY.isSome

theorem pcInited_addPoint (distOK : ℤ → ℤ → Bool) (angleOK : ℤ → ℤ → ℤ → ℤ → Bool)
    (s : PCState) (x y : ℤ) (h : pcInited s) :
    pcInited (addPoint distOK angleOK s x y).1 := by
  obtain ⟨h1, h2, h3, h4, h5, h6⟩ := h
  rcases hpx : s.previousPointX with _ | px
  · simp [hpx] at h1
  · rcases hpy : s.previousPointY with _ | py
    · simp [hpy] at h2
    · cases hd : distOK (x - px) (y - py)
      · simp [pcInited, addPoint, hpx, hpy, hd, h3, h4]
      · rcases hvx : s.previousVectoX with _ | pvx
        · simp [pcInited, addPoint, hpx, hpy, hd, hvx, h3, h4]
        · rcases hvy : s.previousVectoY with _ | pvy
          · simp [pcInited, addPoint, hpx, hpy, hd, hvx, hvy, h3, h4]
          · cases ha : angleOK pvx pvy (x - px) (y - py) <;>
              simp [pcInited, addPoint, hpx, hpy, hd, hvx, hvy, ha, h3, h4]

theorem pcInited_addPoint_first (distOK : ℤ → ℤ → Bool)
    (angleOK : ℤ → ℤ → ℤ → ℤ → Bool) (x y : ℤ) :
    pcInited (addPoint distOK angleOK pcInit x y).1 := by
  simp [pcInited, addPoint, pcInit]

theorem pcInited_runPoints (distOK : ℤ → ℤ → Bool) (angleOK : ℤ → ℤ → ℤ → ℤ → Bool)
    (s : PCState) (ps : List (ℤ × ℤ)) (h : pcInited s) :
    pcInited (runPoints distOK angleOK s ps) := by
  induction ps generalizing s with
  | nil => exact h
  | cons p ps ih => exact ih _ (pcInited_addPoint distOK angleOK s p.1 p.2 h)

theorem getPattern_of_pcInited (s : PCState) (h : pcInited s) :
    (getPattern s).length = s.extracedVectors.length + 1 ∧ getPattern s ≠ [] := by
  obtain ⟨h1, h2, h3, h4, h5, h6⟩ := h
  rcases hlx : s.lastPointX with _ | lx
  · simp [hlx] at h5
  · rcases hly : s.lastPointY with _ | ly
    · simp [hly] at h6
    · rcases hex : s.lastExtractedPointX with _ | lex
      · simp [hex] at h3
      · rcases hey : s.lastExtractedPointY with _ | ley
        · simp [hey] at h4
        · simp [getPattern, hlx, hly, hex, hey]

/-- C4: for every sequence of points fed from the fresh (or cleared) state,
`getPattern` has length equal to the number of extracted segments plus
exactly one trailing synthetic vector, and it is empty exactly when no point
was fed.  (`clear` re-establishes the fresh state, so runs after a `clear`
are runs from `pcInit`.) -/
theorem c4_getPattern_length (distOK : ℤ → ℤ → Bool)
    (angleOK : ℤ → ℤ → ℤ → ℤ → Bool) (s : PCState) (ps : List (ℤ × ℤ)) :
    pcClear s = pcInit ∧
    (getPattern (runPoints distOK angleOK pcInit ps) = [] ↔ ps = []) ∧
    (ps ≠ [] →
      (getPattern (runPoints distOK angleOK pcInit ps)).length =
        (runPoints distOK angleOK pcInit ps).extracedVectors.length + 1) := by
  refine ⟨rfl, ?_, ?_⟩
  · cases ps with
    | nil => simp [runPoints, getPattern, pcInit]
    | cons p ps =>
      have hinit : pcInited (runPoints distOK angleOK pcInit (p :: ps)) := by
        have h1 := pcInited_addPoint_first distOK angleOK p.1 p.2
        simpa [runPoints] using
          pcInited_runPoints distOK angleOK _ ps h1
      simp [(getPattern_of_pcInited _ hinit).2]
  · intro hps
    cases ps with
    | nil => exact absurd rfl hps
    | cons p ps =>
      have hinit : pcInited (runPoints distOK angleOK pcInit (p :: ps)) := by
        have h1 := pcInited_addPoint_first distOK angleOK p.1 p.2
        simpa [runPoints] using
          pcInited_runPoints distOK angleOK _ ps h1
      exact (getPattern_of_pcInited _ hinit).1

/-- Witness for `c4_getPattern_length` at the concrete oracles and the
two-point run `[(0,0), (20,0)]`. -/
theorem c4_getPattern_length_witness :
    pcClear pcInit = pcInit ∧
    (getPattern (runPoints distGT10 angleGT0 pcInit [(0, 0), (20, 0)]) = [] ↔
      ([(0, 0), (20, 0)] : List (ℤ × ℤ)) = []) ∧
    (([(0, 0), (20, 0)] : List (ℤ × ℤ)) ≠ [] →
      (getPattern (runPoints distGT10 angleGT0 pcInit [(0, 0), (20, 0)])).length =
        (runPoints distGT10 angleGT0 pcInit [(0, 0), (20, 0)]).extracedVectors.length + 1) :=
  c4_getPattern_length distGT10 angleGT0 pcInit [(0, 0), (20, 0)]

/-! ### Claim C5 -/

/-- C5: a point whose displacement from the previous-point anchor does not
pass the distance threshold extracts no segment, leaves the anchor (and the
whole state except the last point) unchanged, and returns 0; consequently
feeding the exact same point twice in a row gives, on the second call, the
unchanged state with indicator 0, so `getPattern` is unchanged. -/
theorem c5_jitter_idempotence (distOK : ℤ → ℤ → Bool)
    (angleOK : ℤ → ℤ → ℤ → ℤ → Bool) (s : PCState) (x y : ℤ) :
    (∀ px py, s.previousPointX = some px → s.previousPointY = some py →
      distOK (x - px) (y - py) = false →
      addPoint distOK angleOK s x y =
        ({ s with lastPointX := some x, lastPointY := some y }, 0)) ∧
    (distOK 0 0 = false →
      addPoint distOK angleOK (addPoint distOK angleOK s x y).1 x y =
        ((addPoint distOK angleOK s x y).1, 0) ∧
      getPattern (addPoint distOK angleOK (addPoint distOK angleOK s x y).1 x y).1 =
        getPattern (addPoint distOK angleOK s x y).1) := by
  constructor
  · intro px py hpx hpy hd
    simp [addPoint, hpx, hpy, hd]
  · intro h0
    have key : addPoint distOK angleOK (addPoint distOK angleOK s x y).1 x y =
        ((addPoint distOK angleOK s x y).1, 0) := by
      rcases hpx : s.previousPointX with _ | px
      · simp [addPoint, hpx, h0, sub_self]
      · rcases hpy : s.previousPointY with _ | py
        · simp [addPoint, hpx, hpy, h0, sub_self]
        · cases hd : distOK (x - px) (y - py)
          · simp [addPoint, hpx, hpy, hd]
          · rcases hvx : s.previousVectoX with _ | pvx
            · simp [addPoint, hpx, hpy, hd, hvx, h0, sub_self]
            · rcases hvy : s.previousVectoY with _ | pvy
              · simp [addPoint, hpx, hpy, hd, hvx, hvy, h0, sub_self]
              · cases ha : angleOK pvx pvy (x - px) (y - py) <;>
                  simp [addPoint, hpx, hpy, hd, hvx, hvy, ha, h0, sub_self]
    exact ⟨key, by rw [key]⟩

/-- Witness for `c5_jitter_idempotence`: from the state after the single
point `(0,0)`, add `(5,3)` (distance `√34 ≤ 10`) and then `(5,3)` again. -/
theorem c5_jitter_idempotence_witness :
    (∀ px py,
      (runPoints distGT10 angleGT0 pcInit [(0, 0)]).previousPointX = some px →
      (runPoints distGT10 angleGT0 pcInit [(0, 0)]).previousPointY = some py →
      distGT10 (5 - px) (3 - py) = false →
      addPoint distGT10 angleGT0 (runPoints distGT10 angleGT0 pcInit [(0, 0)]) 5 3 =
        ({ runPoints distGT10 angleGT0 pcInit [(0, 0)] with
            lastPointX := some 5, lastPointY := some 3 }, 0)) ∧
    (distGT10 0 0 = false →
      addPoint distGT10 angleGT0
          (addPoint distGT10 angleGT0 (runPoints distGT10 angleGT0 pcInit [(0, 0)]) 5 3).1 5 3 =
        ((addPoint distGT10 angleGT0 (runPoints distGT10 angleGT0 pcInit [(0, 0)]) 5 3).1, 0) ∧
      getPattern (addPoint distGT10 angleGT0
          (addPoint distGT10 angleGT0 (runPoints distGT10 angleGT0 pcInit [(0, 0)]) 5 3).1 5 3).1 =
        getPattern (addPoint distGT10 angleGT0
          (runPoints distGT10 angleGT0 pcInit [(0, 0)]) 5 3).1) :=
  c5_jitter_idempotence distGT10 angleGT0 (runPoints distGT10 angleGT0 pcInit [(0, 0)]) 5 3

/-! ### MouseGestureController (content.bundle.js:413-771)

The module-level variables `state`, `preventDefault`, `timeoutId`,
`mouseEventBuffer` and the attachment status of the secondary listeners
(`pointermove`/`dragstart`/`keydown`/`pointerup`, added by `initialize` and
removed by `reset`) form the machine state.  `timeoutId` is an opaque timer
handle; we model the pending timer it refers to as the absolute time at
which the scheduled `abort` callback will fire (`none` = no pending timer;
`window.setTimeout(abort, timeoutDuration)` at time `now` yields
`some (now + timeoutDuration)`, `window.clearTimeout` yields `none`, and a
timer that fires is no longer pending).  `enable()` is assumed to have run,
so `pointerdown` and `contextmenu` are always handled. -/

/-- The internal states PASSIVE, PENDING, ACTIVE, ABORTED
(content.bundle.js:417-420). -/
inductive GState where
  | passive
  | pending
  | active
  | aborted
deriving DecidableEq, Repr

/-- The fields of a pointer event sample read by the controller. -/
structure PSample where
  isTrusted : Bool
  clientX : ℤ
  clientY : ℤ
  buttons : ℤ
  button : ℤ
  shiftKey : Bool
  ctrlKey : Bool
  altKey : Bool
deriving DecidableEq, Repr

/-- The fields of a keyboard event sample read by `handleKeydown`
(`event.repeat` is modelled as `keyRepeat`). -/
structure KSample where
  isTrusted : Bool
  keyRepeat : Bool
  key : String
deriving DecidableEq, Repr

/-- The configuration values read at decision points: `mouseButton`,
`suppressionKey`, `timeoutActive`, `timeoutDuration`
(content.bundle.js:563-568), and `distGT dx dy` standing for the source
comparison `getDistance(x1, y1, x2, y2) > distanceThreshold`
(content.bundle.js:613), where `(dx, dy)` is the displacement
`(x2 - x1, y2 - y1)` of `getDistance` (content.bundle.js:32-34). -/
structure MGConfig where
  mouseButton : ℤ
  suppressionKey : String
  timeoutActive : Bool
  timeoutDuration : ℤ
  distGT : ℤ → ℤ → Bool

structure MGState where
  state : GState
  preventDefault : Bool
  timeoutDeadline : Option ℤ
  buffer : List PSample
  attached : Bool

/-- The state after `enable()` on a fresh module: PASSIVE, `preventDefault`
true (content.bundle.js:547), no timer, empty buffer, secondary listeners
not attached. -/
def mgInit : MGState :=
  { state := .passive, preventDefault := true, timeoutDeadline := none
    buffer := [], attached := false }

/-- `toSingleButton` (content.bundle.js:41-46). -/
def toSingleButton (pressedButton : ℤ) : ℤ :=
  if pressedButton = 1 then 0
  else if pressedButton = 2 then 2
  else if pressedButton = 4 then 1
  else -1

/-- `event[suppressionKey]` for the modifier-flag property names used by the
controller; any other property name reads `undefined`, which is falsy. -/
def suppressionHeld (e : PSample) (key : String) : Bool :=
  if key = "shiftKey" then e.shiftKey
  else if key = "ctrlKey" then e.ctrlKey
  else if key = "altKey" then e.altKey
  else false

/-- The `pressedKey` map of `handleKeydown` (content.bundle.js:748-752). -/
def mapPressedKey (k : String) : Option String :=
  if k = "Shift" then some "shiftKey"
  else if k = "Control" then some "ctrlKey"
  else if k = "Alt" then some "altKey"
  else none

/-- The lifecycle callbacks a step dispatches. -/
inductive MGOut where
  | fireStart
  | fireUpdate
  | fireAbort
  | fireEnd
deriving DecidableEq, Repr

/-- The events the machine handles; `timerFire` is the scheduled `abort`
callback of the timeout coming due. -/
inductive MGEvent where
  | pointerdown (e : PSample)
  | pointermove (e : PSample)
  | pointerup (e : PSample)
  | keydown (e : KSample)
  | timerFire
deriving Repr

/-- `initialize` (content.bundle.js:574-591): buffer the initiating sample,
switch to PENDING, clear `preventDefault`, attach the secondary listeners. -/
def mgInitialize (s : MGState) (e : PSample) : MGState :=
  { s with buffer := s.buffer ++ [e], state := .pending
           preventDefault := false, attached := true }

/-- `update` (content.bundle.js:600-636), called at time `now`: buffer the
sample; in PENDING, fire `start` and go ACTIVE once the distance between the
initial and the latest buffered sample passes the threshold; in ACTIVE, fire
`update` and, when the timeout is active, clear any pending timer and
schedule a fresh one for the full duration. -/
def mgUpdate (cfg : MGConfig) (now : ℤ) (s : MGState) (e : PSample) :
    MGState × List MGOut :=
  let buf := s.buffer ++ [e]
  if s.state = .pending then
    let initial := buf.headD e
    let latest := buf.getLastD e
    if cfg.distGT (latest.clientX - initial.clientX) (latest.clientY - initial.clientY) then
      ({ s with buffer := buf, state := .active, preventDefault := true },
        [MGOut.fireStart])
    else ({ s with buffer := buf }, [])
  else if s.state = .active then
    if cfg.timeoutActive then
      ({ s with buffer := buf, timeoutDeadline := some (now + cfg.timeoutDuration) },
        [MGOut.fireUpdate])
    else ({ s with buffer := buf }, [MGOut.fireUpdate])
  else ({ s with buffer := buf }, [])

/-- `abort` (content.bundle.js:642-646): fire `abort` and set ABORTED;
nothing else is touched. -/
def mgAbort (s : MGState) : MGState × List MGOut :=
  ({ s with state := .aborted }, [MGOut.fireAbort])

/-- `reset` (content.bundle.js:673-688): detach the secondary listeners,
clear the buffer, go PASSIVE, clear any pending timer (`preventDefault` is
not touched). -/
def mgReset (s : MGState) : MGState :=
  { s with attached := false, buffer := [], state := .passive, timeoutDeadline := none }

/-- `terminate` (content.bundle.js:653-667): buffer the sample, fire `end`
only from ACTIVE, then reset. -/
def mgTerminate (s : MGState) (e : PSample) : MGState × List MGOut :=
  let s1 := { s with buffer := s.buffer ++ [e] }
  (mgReset s1, if s1.state = .active then [MGOut.fireEnd] else [])

/-- One step of the controller: the relevant handler guard followed by the
mutation it performs.  `pointerdown` is handled in every state
(content.bundle.js:694-702); the other DOM handlers run only while the
secondary listeners are attached; the timer callback runs only while its
timer is pending. -/
def mgStep (cfg : MGConfig) (now : ℤ) (s : MGState) (ev : MGEvent) :
    MGState × List MGOut :=
  match ev with
  | .pointerdown e =>
    if e.isTrusted ∧ e.buttons = cfg.mouseButton ∧
        (cfg.suppressionKey = "" ∨ ¬suppressionHeld e cfg.suppressionKey) then
      (mgInitialize s e, [])
    else (s, [])
  | .pointermove e =>
    if s.attached ∧ e.isTrusted ∧ e.buttons = cfg.mouseButton then
      mgUpdate cfg now s e
    else (s, [])
  | .pointerup e =>
    if s.attached ∧ e.isTrusted ∧ e.button = toSingleButton cfg.mouseButton then
      mgTerminate s e
    else (s, [])
  | .keydown e =>
    if s.attached ∧ e.isTrusted ∧ ¬e.keyRepeat ∧ cfg.suppressionKey ≠ "" ∧
        mapPressedKey e.key = some cfg.suppressionKey then
      mgAbort s
    else (s, [])
  | .timerFire =>
    match s.timeoutDeadline with
    | some _ =>
      let r := mgAbort s
      ({ r.1 with timeoutDeadline := none }, r.2)
    | none => (s, [])

/-- Run a list of timed events through the machine, keeping the state. -/
def mgRun (cfg : MGConfig) (s : MGState) (evs : List (ℤ × MGEvent)) : MGState :=
  evs.foldl (fun t ev => (mgStep cfg ev.1 t ev.2).1) s

/-! ### Claim C2 -/

/-- Configuration used by the concrete runs: right trigger button,
`Shift` as suppression key, timeout disabled, distance threshold 10. -/
def c2cfg : MGConfig :=
  { mouseButton := 2, suppressionKey := "shiftKey", timeoutActive := false
    timeoutDuration := 1000, distGT := distGT10 }

/-- A trusted right-button press at `(0, 0)`. -/
def c2down : PSample :=
  { isTrusted := true, clientX := 0, clientY := 0, buttons := 2, button := 2
    shiftKey := false, ctrlKey := false, altKey := false }

/-- A trusted move to `(20, 0)` with the right button held. -/
def c2move : PSample :=
  { isTrusted := true, clientX := 20, clientY := 0, buttons := 2, button := -1
    shiftKey := false, ctrlKey := false, altKey := false }

/-- A further trusted move to `(25, 0)` with the right button held. -/
def c2move2 : PSample :=
  { isTrusted := true, clientX := 25, clientY := 0, buttons := 2, button := -1
    shiftKey := false, ctrlKey := false, altKey := false }

/-- A trusted, non-repeat press of the suppression key. -/
def c2key : KSample := { isTrusted := true, keyRepeat := false, key := "Shift" }

/-- C2 counterexample.  A qualifying press, a move past the distance
threshold and a trusted non-repeat suppression-key press put the machine in
ABORTED — but contrary to the claim it does not return to PASSIVE
immediately and unconditionally: the aborting step itself leaves it in
ABORTED, and a further pointer move still leaves it in ABORTED. -/
theorem c2_counterexample :
    (mgRun c2cfg mgInit
      [(0, .pointerdown c2down), (1, .pointermove c2move)]).state = GState.active ∧
    (mgRun c2cfg mgInit
      [(0, .pointerdown c2down), (1, .pointermove c2move),
       (2, .keydown c2key)]).state = GState.aborted ∧
    (mgRun c2cfg mgInit
      [(0, .pointerdown c2down), (1, .pointermove c2move),
       (2, .keydown c2key), (3, .pointermove c2move2)]).state = GState.aborted := by
  decide

/-- C2 (amended): Passive goes to Pending exactly on a trusted press whose
buttons mask equals the trigger with the suppression key absent or not held;
Pending goes to Active exactly when a handled move makes the distance from
the initiating buffered sample to the latest sample pass the threshold;
Active goes to Passive on a qualifying release, firing `end`; Active goes to
Aborted on a trusted non-repeat suppression-key press or on expiry of a
pending timeout; but from Aborted the machine does not return to Passive by
itself: further moves and presses leave it in Aborted, and it returns to
Passive when the qualifying release arrives, which fires no `end`. -/
theorem headD_append_singleton {α : Type} (xs : List α) (e : α) :
    (xs ++ [e]).headD e = xs.headD e := by
  cases xs <;> rfl

/-- `update` in the PENDING state (content.bundle.js:608-622), with the
initial buffered sample and the latest sample (which is the sample just
buffered) spelled out. -/
theorem mgUpdate_pending (cfg : MGConfig) (now : ℤ) (s : MGState) (e : PSample)
    (hs : s.state = .pending) :
    mgUpdate cfg now s e =
      if cfg.distGT (e.clientX - (s.buffer.headD e).clientX)
          (e.clientY - (s.buffer.headD e).clientY) then
        ({ s with buffer := s.buffer ++ [e], state := .active, preventDefault := true },
          [MGOut.fireStart])
      else ({ s with buffer := s.buffer ++ [e] }, []) := by
  cases hb : s.buffer with
  | nil => simp [mgUpdate, hs, hb]
  | cons a as =>
    have hl : (a :: (as ++ [e])).getLast?.getD e = e := by
      rw [← List.cons_append, List.getLast?_concat]
      rfl
    simp [mgUpdate, hs, hb, hl]

theorem c2_transition_table (cfg : MGConfig) (now : ℤ) (s : MGState) (ev : MGEvent) :
    (s.state = .passive → s.attached = false → s.timeoutDeadline = none →
      ((mgStep cfg now s ev).1.state = .pending ↔
        ∃ e, ev = .pointerdown e ∧ e.isTrusted = true ∧ e.buttons = cfg.mouseButton ∧
          (cfg.suppressionKey = "" ∨ ¬suppressionHeld e cfg.suppressionKey = true))) ∧
    (s.state = .pending →
      ((mgStep cfg now s ev).1.state = .active ↔
        ∃ e, ev = .pointermove e ∧ s.attached = true ∧ e.isTrusted = true ∧
          e.buttons = cfg.mouseButton ∧
          cfg.distGT (e.clientX - (s.buffer.headD e).clientX)
            (e.clientY - (s.buffer.headD e).clientY) = true)) ∧
    (s.state = .active → s.attached = true →
      ∀ e, ev = .pointerup e → e.isTrusted = true →
        e.button = toSingleButton cfg.mouseButton →
        (mgStep cfg now s ev).1.state = .passive ∧
        (mgStep cfg now s ev).2 = [MGOut.fireEnd]) ∧
    (s.state = .active → s.attached = true →
      ∀ e, ev = .keydown e → e.isTrusted = true → e.keyRepeat = false →
        cfg.suppressionKey ≠ "" → mapPressedKey e.key = some cfg.suppressionKey →
        (mgStep cfg now s ev).1.state = .aborted ∧
        (mgStep cfg now s ev).2 = [MGOut.fireAbort]) ∧
    (s.state = .active → s.timeoutDeadline.isSome → ev = .timerFire →
      (mgStep cfg now s ev).1.state = .aborted ∧
      (mgStep cfg now s ev).2 = [MGOut.fireAbort]) ∧
    (s.state = .aborted →
      (∀ e, ev = .pointermove e → (mgStep cfg now s ev).1.state = .aborted) ∧
      (∀ e, ev = .keydown e → (mgStep cfg now s ev).1.state = .aborted) ∧
      (∀ e, ev = .pointerup e → s.attached = true → e.isTrusted = true →
        e.button = toSingleButton cfg.mouseButton →
        (mgStep cfg now s ev).1.state = .passive ∧ (mgStep cfg now s ev).2 = [])) := by
  refine ⟨?_, ?_, ?_, ?_, ?_, ?_⟩
  · intro hs ha hd
    cases ev with
    | pointerdown e =>
      rw [mgStep]
      by_cases hg : e.isTrusted = true ∧ e.buttons = cfg.mouseButton ∧
          (cfg.suppressionKey = "" ∨ ¬suppressionHeld e cfg.suppressionKey = true)
      · rw [if_pos hg]
        exact ⟨fun _ => ⟨e, rfl, hg.1, hg.2.1, hg.2.2⟩, fun _ => rfl⟩
      · rw [if_neg hg]
        constructor
        · intro h
          have h' : s.state = GState.pending := h
          rw [hs] at h'
          exact absurd h' (by decide)
        · rintro ⟨e', he', h1, h2, h3⟩
          injection he' with hee
          subst hee
          exact absurd ⟨h1, h2, h3⟩ hg
    | pointermove e => simp [mgStep, ha, hs]
    | pointerup e => simp [mgStep, ha, hs]
    | keydown e => simp [mgStep, ha, hs]
    | timerFire => simp [mgStep, hd, hs]
  · intro hs
    cases ev with
    | pointerdown e =>
      rw [mgStep]
      by_cases hg : e.isTrusted = true ∧ e.buttons = cfg.mouseButton ∧
          (cfg.suppressionKey = "" ∨ ¬suppressionHeld e cfg.suppressionKey = true)
      · rw [if_pos hg]
        constructor
        · intro h
          exact absurd (show GState.pending = GState.active from h) (by decide)
        · rintro ⟨e', he', _, _, _, _⟩
          exact MGEvent.noConfusion he'
      · rw [if_neg hg]
        constructor
        · intro h
          have h' : s.state = GState.active := h
          rw [hs] at h'
          exact absurd h' (by decide)
        · rintro ⟨e', he', _, _, _, _⟩
          exact MGEvent.noConfusion he'
    | pointermove e =>
      rw [mgStep]
      by_cases hg : s.attached = true ∧ e.isTrusted = true ∧ e.buttons = cfg.mouseButton
      · rw [if_pos hg, mgUpdate_pending cfg now s e hs]
        cases hdist : cfg.distGT (e.clientX - (s.buffer.headD e).clientX)
            (e.clientY - (s.buffer.headD e).clientY)
        · rw [if_neg (by simp [hdist])]
          constructor
          · intro h
            have h' : s.state = GState.active := h
            rw [hs] at h'
            exact absurd h' (by decide)
          · rintro ⟨e', he', _, _, _, h5⟩
            injection he' with hee
            subst hee
            rw [hdist] at h5
            exact absurd h5 (by decide)
        · rw [if_pos (by simp [hdist])]
          exact ⟨fun _ => ⟨e, rfl, hg.1, hg.2.1, hg.2.2, hdist⟩, fun _ => rfl⟩
      · rw [if_neg hg]
        constructor
        · intro h
          have h' : s.state = GState.active := h
          rw [hs] at h'
          exact absurd h' (by decide)
        · rintro ⟨e', he', h2, h3, h4, _⟩
          injection he' with hee
          subst hee
          exact absurd ⟨h2, h3, h4⟩ hg
    | pointerup e =>
      rw [mgStep]
      by_cases hg : s.attached = true ∧ e.isTrusted = true ∧
          e.button = toSingleButton cfg.mouseButton
      · rw [if_pos hg]
        constructor
        · intro h
          exact absurd (show GState.passive = GState.active from h) (by decide)
        · rintro ⟨e', he', _, _, _, _⟩
          exact MGEvent.noConfusion he'
      · rw [if_neg hg]
        constructor
        · intro h
          have h' : s.state = GState.active := h
          rw [hs] at h'
          exact absurd h' (by decide)
        · rintro ⟨e', he', _, _, _, _⟩
          exact MGEvent.noConfusion he'
    | keydown e =>
      rw [mgStep]
      by_cases hg : s.attached = true ∧ e.isTrusted = true ∧ ¬e.keyRepeat = true ∧
          cfg.suppressionKey ≠ "" ∧ mapPressedKey e.key = some cfg.suppressionKey
      · rw [if_pos hg]
        constructor
        · intro h
          exact absurd (show GState.aborted = GState.active from h) (by decide)
        · rintro ⟨e', he', _, _, _, _⟩
          exact MGEvent.noConfusion he'
      · rw [if_neg hg]
        constructor
        · intro h
          have h' : s.state = GState.active := h
          rw [hs] at h'
          exact absurd h' (by decide)
        · rintro ⟨e', he', _, _, _, _⟩
          exact MGEvent.noConfusion he'
    | timerFire =>
      rw [mgStep]
      cases hd : s.timeoutDeadline with
      | none =>
        constructor
        · intro h
          have h' : s.state = GState.active := h
          rw [hs] at h'
          exact absurd h' (by decide)
        · rintro ⟨e', he', _, _, _, _⟩
          exact MGEvent.noConfusion he'
      | some d =>
        constructor
        · intro h
          exact absurd (show GState.aborted = GState.active from h) (by decide)
        · rintro ⟨e', he', _, _, _, _⟩
          exact MGEvent.noConfusion he'
  · intro hs ha e he ht hb
    subst he
    rw [mgStep, if_pos (by simp [ha, ht, hb])]
    simp [mgTerminate, mgReset, hs]
  · intro hs ha e he ht hr hk hm
    subst he
    rw [mgStep, if_pos (by simp [ha, ht, hr, hk, hm])]
    simp [mgAbort]
  · intro hs hd he
    subst he
    rcases hdl : s.timeoutDeadline with _ | d
    · rw [hdl] at hd; simp at hd
    · simp [mgStep, hdl, mgAbort]
  · intro hs
    refine ⟨?_, ?_, ?_⟩
    · intro e he
      subst he
      by_cases hg : s.attached = true ∧ e.isTrusted = true ∧ e.buttons = cfg.mouseButton
      · rw [mgStep, if_pos (by simpa using hg)]
        rw [mgUpdate]
        rw [if_neg (by simp [hs]), if_neg (by simp [hs])]
        simpa using hs
      · rw [mgStep, if_neg (by simpa using hg)]
        exact hs
    · intro e he
      subst he
      by_cases hg : s.attached = true ∧ e.isTrusted = true ∧ ¬e.keyRepeat = true ∧
          cfg.suppressionKey ≠ "" ∧ mapPressedKey e.key = some cfg.suppressionKey
      · rw [mgStep, if_pos (by simpa using hg)]
        simp [mgAbort]
      · rw [mgStep, if_neg (by simpa using hg)]
        exact hs
    · intro e he ha ht hb
      subst he
      rw [mgStep, if_pos (by simp [ha, ht, hb])]
      simp [mgTerminate, mgReset, hs]

/-- Witness for `c2_transition_table` at the concrete configuration, the
fresh state and a qualifying press. -/
theorem c2_transition_table_witness :
    (mgInit.state = .passive → mgInit.attached = false → mgInit.timeoutDeadline = none →
      ((mgStep c2cfg 0 mgInit (.pointerdown c2down)).1.state = .pending ↔
        ∃ e, MGEvent.pointerdown c2down = .pointerdown e ∧ e.isTrusted = true ∧
          e.buttons = c2cfg.mouseButton ∧
          (c2cfg.suppressionKey = "" ∨ ¬suppressionHeld e c2cfg.suppressionKey = true))) ∧
    (mgInit.state = .pending →
      ((mgStep c2cfg 0 mgInit (.pointerdown c2down)).1.state = .active ↔
        ∃ e, MGEvent.pointerdown c2down = .pointermove e ∧ mgInit.attached = true ∧
          e.isTrusted = true ∧ e.buttons = c2cfg.mouseButton ∧
          c2cfg.distGT (e.clientX - (mgInit.buffer.headD e).clientX)
            (e.clientY - (mgInit.buffer.headD e).clientY) = true)) ∧
    (mgInit.state = .active → mgInit.attached = true →
      ∀ e, MGEvent.pointerdown c2down = .pointerup e → e.isTrusted = true →
        e.button = toSingleButton c2cfg.mouseButton →
        (mgStep c2cfg 0 mgInit (.pointerdown c2down)).1.state = .passive ∧
        (mgStep c2cfg 0 mgInit (.pointerdown c2down)).2 = [MGOut.fireEnd]) ∧
    (mgInit.state = .active → mgInit.attached = true →
      ∀ e, MGEvent.pointerdown c2down = .keydown e → e.isTrusted = true →
        e.keyRepeat = false → c2cfg.suppressionKey ≠ "" →
        mapPressedKey e.key = some c2cfg.suppressionKey →
        (mgStep c2cfg 0 mgInit (.pointerdown c2down)).1.state = .aborted ∧
        (mgStep c2cfg 0 mgInit (.pointerdown c2down)).2 = [MGOut.fireAbort]) ∧
    (mgInit.state = .active → mgInit.timeoutDeadline.isSome →
      MGEvent.pointerdown c2down = .timerFire →
      (mgStep c2cfg 0 mgInit (.pointerdown c2down)).1.state = .aborted ∧
      (mgStep c2cfg 0 mgInit (.pointerdown c2down)).2 = [MGOut.fireAbort]) ∧
    (mgInit.state = .aborted →
      (∀ e, MGEvent.pointerdown c2down = .pointermove e →
        (mgStep c2cfg 0 mgInit (.pointerdown c2down)).1.state = .aborted) ∧
      (∀ e, MGEvent.pointerdown c2down = .keydown e →
        (mgStep c2cfg 0 mgInit (.pointerdown c2down)).1.state = .aborted) ∧
      (∀ e, MGEvent.pointerdown c2down = .pointerup e → mgInit.attached = true →
        e.isTrusted = true → e.button = toSingleButton c2cfg.mouseButton →
        (mgStep c2cfg 0 mgInit (.pointerdown c2down)).1.state = .passive ∧
        (mgStep c2cfg 0 mgInit (.pointerdown c2down)).2 = [])) :=
  c2_transition_table c2cfg 0 mgInit (.pointerdown c2down)

/-! ### Claim C7 -/

/-- C7: with the timeout enabled, every qualifying move handled in the
ACTIVE state replaces whatever timer was pending by a fresh one for the full
timeout duration counted from the time of this update — so expiry happens
`timeoutDuration` after the most recent update, not after the gesture start;
`reset` clears any pending timer; and expiry of a pending timer takes the
machine to ABORTED via the abort path. -/
theorem c7_timeout_rearm (cfg : MGConfig) (now : ℤ) (s : MGState) (e : PSample)
    (hs : s.state = .active) (hto : cfg.timeoutActive = true)
    (ha : s.attached = true) (ht : e.isTrusted = true)
    (hb : e.buttons = cfg.mouseButton) :
    (mgStep cfg now s (.pointermove e)).1.timeoutDeadline =
      some (now + cfg.timeoutDuration) ∧
    (mgStep cfg now s (.pointermove e)).2 = [MGOut.fireUpdate] ∧
    (mgReset s).timeoutDeadline = none ∧
    (∀ d, s.timeoutDeadline = some d →
      (mgStep cfg now s .timerFire).1.state = .aborted ∧
      (mgStep cfg now s .timerFire).2 = [MGOut.fireAbort] ∧
      (mgStep cfg now s .timerFire).1.timeoutDeadline = none) := by
  have hstep : mgStep cfg now s (.pointermove e) = mgUpdate cfg now s e := by
    rw [mgStep, if_pos ⟨ha, ht, hb⟩]
  refine ⟨?_, ?_, rfl, ?_⟩
  · rw [hstep]
    simp [mgUpdate, hs, hto]
  · rw [hstep]
    simp [mgUpdate, hs, hto]
  · intro d hd
    rw [mgStep]
    simp [hd, mgAbort]

/-- Configuration with the timeout enabled (duration 1000). -/
def c7cfg : MGConfig :=
  { mouseButton := 2, suppressionKey := "shiftKey", timeoutActive := true
    timeoutDuration := 1000, distGT := distGT10 }

/-- An ACTIVE state with a pending timer: press at time 0, move past the
threshold at time 1, further move at time 2 (arming the timer for 1002). -/
def c7state : MGState :=
  mgRun c7cfg mgInit
    [(0, .pointerdown c2down), (1, .pointermove c2move), (2, .pointermove c2move2)]

/-- Witness for `c7_timeout_rearm` at the concrete configuration and an
ACTIVE state whose pending timer (for time 1002) is replaced by one for
`5 + 1000`. -/
theorem c7_timeout_rearm_witness :
    c7state.timeoutDeadline = some 1002 ∧
    (mgStep c7cfg 5 c7state (.pointermove c2move2)).1.timeoutDeadline =
      some (5 + c7cfg.timeoutDuration) ∧
    (mgStep c7cfg 5 c7state (.pointermove c2move2)).2 = [MGOut.fireUpdate] ∧
    (mgReset c7state).timeoutDeadline = none ∧
    ((mgStep c7cfg 5 c7state .timerFire).1.state = .aborted ∧
      (mgStep c7cfg 5 c7state .timerFire).2 = [MGOut.fireAbort] ∧
      (mgStep c7cfg 5 c7state .timerFire).1.timeoutDeadline = none) := by
  have h := c7_timeout_rearm c7cfg 5 c7state c2move2 (by decide) (by decide)
    (by decide) (by decide) (by decide)
  exact ⟨by decide, h.1, h.2.1, h.2.2.1, h.2.2.2 1002 (by decide)⟩

/-! ### WheelGestureController (content.bundle.js:937-1146)

The module-level variables `preventDefault$2` and `accumulatedDeltaY` form
the state relevant to `handleWheel`; `lastMouseup$1` plays the same role as
in the rocker detector. -/

structure WheelState where
  preventDefault : Bool
  accumulatedDeltaY : ℤ
deriving DecidableEq, Repr

inductive WheelOut where
  | wheelup
  | wheeldown
deriving DecidableEq, Repr

/-- Initial state (content.bundle.js:1046-1050). -/
def wheelInit : WheelState := { preventDefault := true, accumulatedDeltaY := 0 }

/-- `handleWheel` (content.bundle.js:1073-1099): on a trusted sample with
the trigger button held and a nonzero delta, reset the accumulator if the
new delta's sign differs from the accumulator's sign, then add the delta,
then — if the magnitude meets the sensitivity — fire `wheelup` (negative) or
`wheeldown` (positive) and reset the accumulator to 0; finally re-enable
click/contextmenu prevention.  (The `stopPropagation`/`preventDefault`
calls on the DOM event itself are side effects outside the module state.) -/
def handleWheel (mouseButton wheelSensitivity : ℤ) (s : WheelState)
    (isTrusted : Bool) (buttons deltaY : ℤ) : WheelState × List WheelOut :=
  if isTrusted ∧ buttons = mouseButton ∧ deltaY ≠ 0 then
    let acc0 := if decide (s.accumulatedDeltaY < 0) ≠ decide (deltaY < 0) then 0
                else s.accumulatedDeltaY
    let acc1 := acc0 + deltaY
    if |acc1| ≥ wheelSensitivity then
      let fired := if acc1 < 0 then [WheelOut.wheelup]
                   else if acc1 > 0 then [WheelOut.wheeldown]
                   else []
      ({ preventDefault := true, accumulatedDeltaY := 0 }, fired)
    else ({ preventDefault := true, accumulatedDeltaY := acc1 }, [])
  else (s, [])

/-- Run a list of `(isTrusted, buttons, deltaY)` wheel samples, returning
the final state and the events fired per sample. -/
def wheelRun (mouseButton wheelSensitivity : ℤ) (s : WheelState)
    (samples : List (Bool × ℤ × ℤ)) : WheelState × List (List WheelOut) :=
  match samples with
  | [] => (s, [])
  | (t, b, d) :: rest =>
    let r := handleWheel mouseButton wheelSensitivity s t b d
    let r2 := wheelRun mouseButton wheelSensitivity r.1 rest
    (r2.1, r.2 :: r2.2)

/-! ### Claim C3 -/

/-- C3: with sensitivity 5 and the trigger button (left, mask 1) held, the
trusted delta sequence `[+3, +4]` fires exactly one `wheeldown`, on the
second sample, and leaves the accumulator at 0; the sequence `[+3, -1]`
fires nothing: the sign flip resets the accumulator to 0 before the new
delta is added, leaving it at `-1` (reset at sign-flip detection, then
accumulate, then threshold check). -/
theorem c3_wheel_accumulator :
    wheelRun 1 5 wheelInit [(true, 1, 3), (true, 1, 4)] =
      ({ preventDefault := true, accumulatedDeltaY := 0 },
        [[], [WheelOut.wheeldown]]) ∧
    wheelRun 1 5 wheelInit [(true, 1, 3), (true, 1, -1)] =
      ({ preventDefault := true, accumulatedDeltaY := -1 }, [[], []]) := by
  decide

/-! ### RockerGestureController (content.bundle.js:773-935)

The module-level variables `preventDefault$1` and `lastMouseup` form the
state. -/

structure RockerState where
  preventDefault : Bool
  lastMouseup : ℤ
deriving DecidableEq, Repr

inductive RockerOut where
  | rockerleft
  | rockerright
deriving DecidableEq, Repr

/-- Initial state (content.bundle.js:864-868). -/
def rockerInit : RockerState := { preventDefault := true, lastMouseup := 0 }

/-- The DOM events the rocker detector handles, with the fields each
handler reads. -/
inductive RockerEvent where
  | mousedown (isTrusted : Bool) (buttons button : ℤ)
  | mouseup (timeStamp : ℤ)
  | click (isTrusted : Bool) (button detail timeStamp : ℤ)
  | contextmenu (isTrusted : Bool) (button : ℤ)
  | visibilitychange
deriving Repr

/-- One step of the rocker detector: the pair of fired gesture events and
whether the handler suppressed the DOM event
(`stopPropagation` + `preventDefault`).

* `mousedown` (content.bundle.js:874-890): a trusted press clears the
  prevention flag; if both left and right buttons are reported held and the
  just-transitioned button is one of them, fire `rockerleft` or
  `rockerright`, suppress the event, and re-arm prevention.
* `mouseup` (content.bundle.js:897-899): record the timestamp.
* `visibilitychange` (content.bundle.js:906-909): re-arm prevention.
* `contextmenu` (content.bundle.js:915-921): suppress while prevention is
  armed and the button is the right button.
* `click` (content.bundle.js:927-935): suppress while prevention is armed,
  the button is the left button, `detail` is truthy and the timestamp equals
  the recorded `mouseup` timestamp. -/
def rockerStep (s : RockerState) (ev : RockerEvent) :
    RockerState × List RockerOut × Bool :=
  match ev with
  | .mousedown isTrusted buttons button =>
    if isTrusted then
      if buttons = 1 + 2 ∧ (button = toSingleButton 1 ∨ button = toSingleButton 2) then
        let fired := if button = toSingleButton 1 then [RockerOut.rockerleft]
                     else if button = toSingleButton 2 then [RockerOut.rockerright]
                     else []
        ({ s with preventDefault := true }, fired, true)
      else ({ s with preventDefault := false }, [], false)
    else (s, [], false)
  | .mouseup ts => ({ s with lastMouseup := ts }, [], false)
  | .click isTrusted button detail ts =>
    if isTrusted ∧ s.preventDefault ∧ button = toSingleButton 1 ∧ detail ≠ 0 ∧
        ts = s.lastMouseup then
      (s, [], true)
    else (s, [], false)
  | .contextmenu isTrusted button =>
    if isTrusted ∧ s.preventDefault ∧ button = toSingleButton 2 then
      (s, [], true)
    else (s, [], false)
  | .visibilitychange => ({ s with preventDefault := true }, [], false)

/-- Run a list of rocker events, returning the final state and, per event,
the fired gesture events and the suppression flag. -/
def rockerRun (s : RockerState) (evs : List RockerEvent) :
    RockerState × List (List RockerOut × Bool) :=
  match evs with
  | [] => (s, [])
  | ev :: rest =>
    let r := rockerStep s ev
    let r2 := rockerRun r.1 rest
    (r2.1, (r.2.1, r.2.2) :: r2.2)

/-! ### Claim C6 -/

/-- C6: a trusted press reporting left+right held whose transitioned button
is the left one fires `rockerleft` exactly once and suppresses exactly one
subsequent trusted click — the one whose timestamp equals the timestamp of
the triggering release (here 100); the later ordinary press/release/click at
timestamp 200 is not suppressed; and in general a click whose timestamp
differs from the last recorded `mouseup` timestamp is never suppressed. -/
theorem c6_rocker_suppression (s : RockerState) (trusted : Bool)
    (button detail ts : ℤ) :
    (rockerRun rockerInit
      [.mousedown true 3 0, .mouseup 100, .click true 0 1 100,
       .mousedown true 1 0, .mouseup 200, .click true 0 1 200]).2 =
      [([RockerOut.rockerleft], true), ([], false), ([], true),
       ([], false), ([], false), ([], false)] ∧
    (ts ≠ s.lastMouseup →
      (rockerStep s (.click trusted button detail ts)).2.2 = false) := by
  refine ⟨by decide, ?_⟩
  intro h
  rw [rockerStep]
  rw [if_neg]
  rintro ⟨-, -, -, -, h5⟩
  exact h h5

/-- Witness for `c6_rocker_suppression` at the initial state and a click
with timestamp 7 (different from the recorded `mouseup` timestamp 0). -/
theorem c6_rocker_suppression_witness :
    (rockerRun rockerInit
      [.mousedown true 3 0, .mouseup 100, .click true 0 1 100,
       .mousedown true 1 0, .mouseup 200, .click true 0 1 200]).2 =
      [([RockerOut.rockerleft], true), ([], false), ([], true),
       ([], false), ([], false), ([], false)] ∧
    ((7 : ℤ) ≠ rockerInit.lastMouseup →
      (rockerStep rockerInit (.click true 0 1 7)).2.2 = false) :=
  c6_rocker_suppression rockerInit true 0 1 7

/-! ### Blacklist URL matcher (content.bundle.js:2109-2117)

`matchesCurrentURL` escapes every regex metacharacter of the pattern except
`*`, which becomes `.*`, and tests `new RegExp('^' + pattern + '$')` against
the URL: an anchored full-string match where `*` matches any character
sequence and every other character matches itself.  (`.*` does not match
line terminators, but those cannot occur in `window.location.href`.)
`globMatchFuel` implements this matching relation; the fuel argument only
makes the recursion structural, and every recursive call strictly decreases
`p.length + s.length`, so the fuel chosen by `globMatch` can never run
out. -/

def globMatchFuel : ℕ → List Char → List Char → Bool
  | 0, _, _ => false
  | _ + 1, [], [] => true
  | _ + 1, [], _ :: _ => false
  | n + 1, c :: p, [] => c = '*' && globMatchFuel n p []
  | n + 1, c :: p, d :: s =>
    if c = '*' then globMatchFuel n p (d :: s) || globMatchFuel n (c :: p) s
    else c = d && globMatchFuel n p s

/-- Whether the glob pattern `p` matches the whole string `s`. -/
def globMatch (p s : List Char) : Bool :=
  globMatchFuel (p.length + s.length + 1) p s

theorem globMatchFuel_star (n : ℕ) :
    ∀ s : List Char, s.length + 2 ≤ n → globMatchFuel n ['*'] s = true := by
  induction n with
  | zero => intro s hn; omega
  | succ n ih =>
    intro s hn
    cases s with
    | nil =>
      cases n with
      | zero => omega
      | succ m => simp [globMatchFuel]
    | cons d s' =>
      rw [globMatchFuel, if_pos rfl]
      have h := ih s' (by simp at hn ⊢; omega)
      simp [h]

/-- A lone `*` matches every string. -/
theorem globMatch_star (s : List Char) : globMatch ['*'] s = true := by
  refine globMatchFuel_star _ s ?_
  simp [List.length]
  omega

theorem globMatchFuel_no_star :
    ∀ (n : ℕ) (p s : List Char), '*' ∉ p → p.length + s.length < n →
      (globMatchFuel n p s = true ↔ p = s) := by
  intro n
  induction n with
  | zero => intro p s hp hn; omega
  | succ n ih =>
    intro p s hp hn
    cases p with
    | nil =>
      cases s with
      | nil => simp [globMatchFuel]
      | cons d s' => simp [globMatchFuel]
    | cons c p' =>
      have hc : c ≠ '*' := by
        intro h
        exact hp (h ▸ List.mem_cons_self c p')
      have hp' : '*' ∉ p' := fun h => hp (List.mem_cons_of_mem c h)
      cases s with
      | nil =>
        rw [globMatchFuel]
        simp [hc]
      | cons d s' =>
        rw [globMatchFuel, if_neg hc]
        have h := ih p' s' hp' (by simp at hn ⊢; omega)
        simp [h]

/-! ### Claim C8 -/

/-- C8: the blacklist matcher treats `*` as a wildcard for any character
sequence and anchors the pattern as a full-string match with every other
character literal: the pattern `*://*.example.com/*` matches
`https://a.example.com/x` and does not match `https://example.org/`; a lone
`*` matches everything; and a star-free pattern matches exactly the string
equal to it. -/
theorem c8_blacklist_matcher (p s : List Char) :
    globMatch ("*://*.example.com/*".toList) ("https://a.example.com/x".toList) = true ∧
    globMatch ("*://*.example.com/*".toList) ("https://example.org/".toList) = false ∧
    globMatch ['*'] s = true ∧
    ('*' ∉ p → (globMatch p s = true ↔ p = s)) := by
  refine ⟨by decide, by decide, globMatch_star s, fun hp => ?_⟩
  exact globMatchFuel_no_star (p.length + s.length + 1) p s hp (by omega)

/-- Witness for `c8_blacklist_matcher` at the star-free pattern `a` and the
string `a`. -/
theorem c8_blacklist_matcher_witness :
    globMatch ("*://*.example.com/*".toList) ("https://a.example.com/x".toList) = true ∧
    globMatch ("*://*.example.com/*".toList) ("https://example.org/".toList) = false ∧
    globMatch ['*'] ['a'] = true ∧
    ('*' ∉ ['a'] → (globMatch ['a'] ['a'] = true ↔ (['a'] : List Char) = ['a'])) :=
  c8_blacklist_matcher ['a'] ['a']

/-! ### ConfigManager (content.bundle.js:182-409)

The stored configuration is JSON-serialisable data; `cloneObject`
(content.bundle.js:23-25) is a `JSON.parse(JSON.stringify(...))` round
trip, the identity on such data.  JavaScript objects are association lists
with unique keys in insertion order; property assignment updates an
existing key in place or appends a new one, `delete` removes it.  Argument
values whose runtime type the methods inspect are modelled by `JSVal`. -/

inductive JSON where
  | null
  | bool (b : Bool)
  | num (n : ℤ)
  | str (s : String)
  | arr (xs : List JSON)
  | obj (fields : List (String × JSON))

/-- A JavaScript argument value as far as the ConfigManager methods inspect
it: a string, an array of path keys, a plain object, a function (identified
by an id), a number, or `undefined`. -/
inductive JSVal where
  | str (s : String)
  | arr (keys : List String)
  | obj (fields : List (String × JSON))
  | fn (id : ℕ)
  | num (n : ℤ)
  | undef

/-- `typeof v === "string"`. -/
def isStringVal : JSVal → Bool
  | .str _ => true
  | _ => false

/-- `Array.isArray(v)`. -/
def isArrayVal : JSVal → Bool
  | .arr _ => true
  | _ => false

/-- `isObject` (content.bundle.js:15-17): a truthy non-array object. -/
def isObjectVal : JSVal → Bool
  | .obj _ => true
  | _ => false

/-- `typeof v === "function"`. -/
def isFunctionVal : JSVal → Bool
  | .fn _ => true
  | _ => false

/-- `v === undefined`. -/
def isUndefVal : JSVal → Bool
  | .undef => true
  | _ => false

/-- `cloneObject` (content.bundle.js:23-25) on JSON-serialisable data. -/
def cloneObject (v : JSON) : JSON := v

/-- Property read `fields[key]` on an association list. -/
def assocGet {β : Type} : List (String × β) → String → Option β
  | [], _ => none
  | (k, v) :: rest, key => if k = key then some v else assocGet rest key

/-- Property assignment `fields[key] = v`. -/
def assocSet {β : Type} : List (String × β) → String → β → List (String × β)
  | [], key, v => [(key, v)]
  | (k, w) :: rest, key, v =>
    if k = key then (k, v) :: rest else (k, w) :: assocSet rest key v

/-- `delete fields[key]`. -/
def assocDelete {β : Type} : List (String × β) → String → List (String × β)
  | [], _ => []
  | (k, v) :: rest, key => if k = key then rest else (k, v) :: assocDelete rest key

/-- The `pathWalker` reducer of `get` (content.bundle.js:263):
`(obj, key) => isObject(obj) ? obj[key] : undefined`. -/
def pathWalker (entry : Option JSON) (key : String) : Option JSON :=
  match entry with
  | some (.obj fs) => assocGet fs key
  | _ => none

/-- The error messages thrown by the methods. -/
def pathErr : String :=
  "The first argument must be a storage path either in the form of an array or a string concatenated with dots."

def storageAreaErr : String :=
  "The first argument must be a storage area in form of a string containing either local or sync."

def defaultsURLErr : String := "The second argument must be an URL to a JSON file."

def eventErr : String := "The first argument is not a valid event."

def callbackErr : String := "The second argument must be a function."

/-- The storage-path normalisation shared by `get` (content.bundle.js:258-261)
and `remove` (content.bundle.js:313-316): split a string on dots, accept an
array, throw otherwise. -/
def normalizePath (storagePath : JSVal) : Except String (List String) :=
  match storagePath with
  | .str s => .ok (s.splitOn ".")
  | .arr keys => .ok keys
  | _ => .error pathErr

/-- The constructor's argument validation together with the initial
`_events` object (content.bundle.js:189-222).  The storage/defaults fetch
and the storage-change subscription are asynchronous external effects with
no bearing on the validation. -/
def configManagerInit (storageArea : String) (defaultsURL : JSVal) :
    Except String (List (String × List ℕ)) :=
  if storageArea ≠ "local" ∧ storageArea ≠ "sync" then .error storageAreaErr
  else if !isStringVal defaultsURL && !isUndefVal defaultsURL then .error defaultsURLErr
  else .ok [("change", [])]

/-- `ConfigManager.get` (content.bundle.js:257-270): normalise the path,
walk the storage, fall back to the defaults when the storage walk yields
`undefined`, and return a clone (`none` = `undefined`). -/
def configGet (storagePath : JSVal) (storage defaults : JSON) :
    Except String (Option JSON) :=
  match normalizePath storagePath with
  | .error e => .error e
  | .ok path =>
    let fromStorage := path.foldl pathWalker (some storage)
    let entry := match fromStorage with
      | none => path.foldl pathWalker (some defaults)
      | some v => some v
    .ok (entry.map cloneObject)

/-- The nested-write loop of `set` (content.bundle.js:289-302): walk to the
last key, descending into existing own-property objects and replacing
anything else by a fresh `{}`, then assign the value at the last key. -/
def setWalk : List (String × JSON) → List String → JSON → List (String × JSON)
  | fs, [], _ => fs
  | fs, [k], v => assocSet fs k v
  | fs, k :: k2 :: rest, v =>
    let sub := match assocGet fs k with
      | some (.obj g) => g
      | _ => []
    assocSet fs k (.obj (setWalk sub (k2 :: rest) v))

/-- `ConfigManager.set` (content.bundle.js:278-304).  `value = none` models
a call with a single argument (`arguments.length === 1`).  The result is
`some newStorage` when the storage was written, `none` when the method
returned without writing (empty array path).  A single-argument call with a
string path reaches `cloneObject(undefined)`, whose
`JSON.parse(JSON.stringify(undefined))` raises a `SyntaxError`. -/
def configSet (storagePath : JSVal) (value : Option JSON)
    (storage : List (String × JSON)) :
    Except String (Option (List (String × JSON))) :=
  match storagePath with
  | .str s =>
    match value with
    | some v => .ok (some (setWalk storage (s.splitOn ".") (cloneObject v)))
    | none => .error "SyntaxError: JSON.parse cannot parse undefined"
  | .obj fs =>
    -- content.bundle.js:281-284: a single plain-object argument replaces
    -- the whole configuration
    if value.isNone then .ok (some fs)
    else .error pathErr
  | .arr keys =>
    if keys.length > 0 then
      match value with
      | some v => .ok (some (setWalk storage keys (cloneObject v)))
      | none => .error "SyntaxError: JSON.parse cannot parse undefined"
    else .ok none
  | _ => .error pathErr

/-- The nested-delete loop of `remove` (content.bundle.js:318-332): walk to
the last key through existing own-property objects — returning without a
write (`none`) when the walk fails — then delete the last key. -/
def removeWalk : List (String × JSON) → List String → Option (List (String × JSON))
  | fs, [] => some fs
  | fs, [k] => some (assocDelete fs k)
  | fs, k :: k2 :: rest =>
    match assocGet fs k with
    | some (.obj g) =>
      match removeWalk g (k2 :: rest) with
      | some g2 => some (assocSet fs k (.obj g2))
      | none => none
    | _ => none

/-- `ConfigManager.remove` (content.bundle.js:312-333). -/
def configRemove (storagePath : JSVal) (storage : List (String × JSON)) :
    Except String (Option (List (String × JSON))) :=
  match normalizePath storagePath with
  | .error e => .error e
  | .ok path =>
    if path.length > 0 then .ok (removeWalk storage path)
    else .ok none

/-- `ConfigManager.addEventListener` (content.bundle.js:352-360): unknown
event and non-function callback throw; otherwise the callback is added to
the event's set (a JavaScript `Set` ignores duplicates). -/
def configAddEventListener (events : List (String × List ℕ)) (ev : String)
    (cb : JSVal) : Except String (List (String × List ℕ)) :=
  match assocGet events ev with
  | none => .error eventErr
  | some listeners =>
    match cb with
    | .fn id =>
      .ok (assocSet events ev (if listeners.contains id then listeners else listeners ++ [id]))
    | _ => .error callbackErr

/-- `ConfigManager.hasEventListener` (content.bundle.js:367-375): unknown
event and non-function callback throw; otherwise
`this._events[event].has(callback)` is evaluated but its result is not
returned — the method returns `undefined`. -/
def configHasEventListener (events : List (String × List ℕ)) (ev : String)
    (cb : JSVal) : Except String JSVal :=
  match assocGet events ev with
  | none => .error eventErr
  | some listeners =>
    match cb with
    | .fn id =>
      let _ismember := listeners.contains id
      .ok JSVal.undef
    | _ => .error callbackErr

/-- `ConfigManager.removeEventListener` (content.bundle.js:382-390): unknown
event and non-function callback throw; with valid arguments the body calls
`this._events[event].remove(callback)`, but a JavaScript `Set` has no
`remove` method (deletion is `Set.delete`), so the call itself raises a
`TypeError`. -/
def configRemoveEventListener (events : List (String × List ℕ)) (ev : String)
    (cb : JSVal) : Except String JSVal :=
  match assocGet events ev with
  | none => .error eventErr
  | some _ =>
    match cb with
    | .fn _ => .error "TypeError: this._events[event].remove is not a function"
    | _ => .error callbackErr

/-! ### The controllers' `hasEventListener`
(content.bundle.js:499-502, 816-819, 995-998) -/

/-- `function hasEventListener (event, callback) { if (event in events)
events[event].has(callback); }` — the membership test is evaluated but not
returned, so the function always returns `undefined`. -/
def hasEventListenerJS (events : List (String × List ℕ)) (ev : String)
    (cb : ℕ) : JSVal :=
  match assocGet events ev with
  | some listeners =>
    let _ismember := listeners.contains cb
    JSVal.undef
  | none => JSVal.undef

/-- The `events` object of the MouseGestureController
(content.bundle.js:553-558). -/
def mouseEvents (s u a e : List ℕ) : List (String × List ℕ) :=
  [("start", s), ("update", u), ("abort", a), ("end", e)]

/-- The `events$1` object of the RockerGestureController
(content.bundle.js:855-858). -/
def rockerEvents (l r : List ℕ) : List (String × List ℕ) :=
  [("rockerleft", l), ("rockerright", r)]

/-- The `events$2` object of the WheelGestureController
(content.bundle.js:1036-1039). -/
def wheelEvents (u d : List ℕ) : List (String × List ℕ) :=
  [("wheelup", u), ("wheeldown", d)]

/-! ### Claim C9 -/

/-- C9: ConfigManager misuse fails immediately with a thrown error: the
constructor throws when the storage area is neither `"local"` nor `"sync"`,
and when the defaults URL is present (not `undefined`) but not a string;
`get`, `set` (called with a path and a value) and `remove` throw when the
storage path is neither a string nor an array; and the three listener
methods throw when the event name is unknown or the callback is not a
function. -/
theorem c9_config_misuse_throws (sa : String) (url path cb : JSVal) (ev : String)
    (v : JSON) (storage : List (String × JSON)) (store defaults : JSON)
    (events : List (String × List ℕ)) :
    (sa ≠ "local" → sa ≠ "sync" →
      configManagerInit sa url = .error storageAreaErr) ∧
    ((sa = "local" ∨ sa = "sync") → isStringVal url = false → isUndefVal url = false →
      configManagerInit sa url = .error defaultsURLErr) ∧
    (isStringVal path = false → isArrayVal path = false →
      configGet path store defaults = .error pathErr) ∧
    (isStringVal path = false → isArrayVal path = false →
      configSet path (some v) storage = .error pathErr) ∧
    (isStringVal path = false → isArrayVal path = false →
      configRemove path storage = .error pathErr) ∧
    (assocGet events ev = none →
      configAddEventListener events ev cb = .error eventErr ∧
      configHasEventListener events ev cb = .error eventErr ∧
      configRemoveEventListener events ev cb = .error eventErr) ∧
    (isFunctionVal cb = false → ∀ ls, assocGet events ev = some ls →
      configAddEventListener events ev cb = .error callbackErr ∧
      configHasEventListener events ev cb = .error callbackErr ∧
      configRemoveEventListener events ev cb = .error callbackErr) := by
  refine ⟨?_, ?_, ?_, ?_, ?_, ?_, ?_⟩
  · intro h1 h2
    simp [configManagerInit, h1, h2]
  · intro hsa h1 h2
    have hcond : ¬(sa ≠ "local" ∧ sa ≠ "sync") := by
      rcases hsa with h | h <;> simp [h]
    rw [configManagerInit, if_neg hcond]
    simp [h1, h2]
  · intro h1 h2
    cases path <;> simp_all [configGet, normalizePath, isStringVal, isArrayVal]
  · intro h1 h2
    cases path <;> simp_all [configSet, isStringVal, isArrayVal]
  · intro h1 h2
    cases path <;> simp_all [configRemove, normalizePath, isStringVal, isArrayVal]
  · intro h
    refine ⟨?_, ?_, ?_⟩ <;>
      simp [configAddEventListener, configHasEventListener,
        configRemoveEventListener, h]
  · intro hcb ls hls
    refine ⟨?_, ?_, ?_⟩
    · rw [configAddEventListener.eq_def, hls]
      cases cb <;> simp_all [isFunctionVal]
    · rw [configHasEventListener.eq_def, hls]
      cases cb <;> simp_all [isFunctionVal]
    · rw [configRemoveEventListener.eq_def, hls]
      cases cb <;> simp_all [isFunctionVal]

/-- Witness for `c9_config_misuse_throws` at a bogus storage area, a
numeric defaults URL, a numeric path, a numeric callback and an unknown
event name. -/
theorem c9_config_misuse_throws_witness :
    (("bogus" : String) ≠ "local" → ("bogus" : String) ≠ "sync" →
      configManagerInit "bogus" (.num 1) = .error storageAreaErr) ∧
    ((("bogus" : String) = "local" ∨ ("bogus" : String) = "sync") →
      isStringVal (.num 1) = false → isUndefVal (.num 1) = false →
      configManagerInit "bogus" (.num 1) = .error defaultsURLErr) ∧
    (isStringVal (.num 2) = false → isArrayVal (.num 2) = false →
      configGet (.num 2) (.obj []) .null = .error pathErr) ∧
    (isStringVal (.num 2) = false → isArrayVal (.num 2) = false →
      configSet (.num 2) (some .null) [] = .error pathErr) ∧
    (isStringVal (.num 2) = false → isArrayVal (.num 2) = false →
      configRemove (.num 2) [] = .error pathErr) ∧
    (assocGet [("change", ([] : List ℕ))] "nochange" = none →
      configAddEventListener [("change", [])] "nochange" (.num 3) = .error eventErr ∧
      configHasEventListener [("change", [])] "nochange" (.num 3) = .error eventErr ∧
      configRemoveEventListener [("change", [])] "nochange" (.num 3) = .error eventErr) ∧
    (isFunctionVal (.num 3) = false →
      ∀ ls, assocGet [("change", ([] : List ℕ))] "nochange" = some ls →
      configAddEventListener [("change", [])] "nochange" (.num 3) = .error callbackErr ∧
      configHasEventListener [("change", [])] "nochange" (.num 3) = .error callbackErr ∧
      configRemoveEventListener [("change", [])] "nochange" (.num 3) = .error callbackErr) :=
  c9_config_misuse_throws "bogus" (.num 1) (.num 2) (.num 3) "nochange" .null []
    (.obj []) .null [("change", [])]

/-! ### Claim C10 -/

theorem hasEventListenerJS_undef (events : List (String × List ℕ))
    (ev : String) (cb : ℕ) : hasEventListenerJS events ev cb = JSVal.undef := by
  rw [hasEventListenerJS]
  cases assocGet events ev <;> rfl

/-- C10: `hasEventListener` of the mouse, rocker and wheel controllers
returns `undefined` for every event name and callback and every listener
population — the membership result is computed but never returned — and
`ConfigManager.hasEventListener` likewise returns `undefined` whenever its
argument checks pass, so no caller can observe whether a listener is
registered. -/
theorem c10_hasEventListener_undefined (s u a e l r wu wd : List ℕ)
    (ev : String) (cb : ℕ) (events : List (String × List ℕ)) (id : ℕ) :
    hasEventListenerJS (mouseEvents s u a e) ev cb = JSVal.undef ∧
    hasEventListenerJS (rockerEvents l r) ev cb = JSVal.undef ∧
    hasEventListenerJS (wheelEvents wu wd) ev cb = JSVal.undef ∧
    (∀ ls, assocGet events ev = some ls →
      configHasEventListener events ev (.fn id) = .ok JSVal.undef) := by
  refine ⟨hasEventListenerJS_undef _ ev cb, hasEventListenerJS_undef _ ev cb,
    hasEventListenerJS_undef _ ev cb, ?_⟩
  intro ls hls
  simp [configHasEventListener, hls]

/-- Witness for `c10_hasEventListener_undefined`: listener id 7 is
registered for `"start"` and for `"change"`, yet both lookups return
`undefined`. -/
theorem c10_hasEventListener_undefined_witness :
    hasEventListenerJS (mouseEvents [7] [] [] []) "start" 7 = JSVal.undef ∧
    hasEventListenerJS (rockerEvents [7] []) "start" 7 = JSVal.undef ∧
    hasEventListenerJS (wheelEvents [7] []) "start" 7 = JSVal.undef ∧
    (∀ ls, assocGet [("change", [7])] "start" = some ls →
      configHasEventListener [("change", [7])] "start" (.fn 7) = .ok JSVal.undef) :=
  c10_hasEventListener_undefined [7] [] [] [] [7] [] [7] [] "start" 7
    [("change", [7])] 7

end Gesturefy
